import Mathlib

/-!
# Verification of the Plex Discord bot core (`discord-bot-for-plex`)

Shallow embedding, in Lean 4, of the pure logic of the repository's
source files `src/plex.rs`, `src/config.rs`, `src/embeds.rs`, and the
aggregator tick of `src/main.rs`, together with theorems settling the
specification claims.

Modelling conventions:
* Rust `u64`/`u32`/`usize` values become `Nat` (all arithmetic in the
  embedded code stays far below any overflow boundary; where overflow or
  truncation could matter it is noted at the definition).
* `f64` arithmetic in `progress_bar` is modelled bit-exactly: an IEEE-754
  binary64 value is represented as an explicit significand–exponent pair
  (`F64`), every operation rounds its exact rational result to 53
  significant bits with round-to-nearest, ties-to-even, and
  `as usize` / `as u8` becomes truncation toward zero. All floats this
  code produces are non-negative and far inside the normal range (u64
  casts, their ratios, and clamped products ≤ 100), so the
  representation omits sign, subnormals, overflow, NaN and infinities,
  which cannot arise here.
* `Instant` timestamps become `Nat` seconds; `elapsed` is truncated
  subtraction (real elapsed time is never negative).
* Network I/O is factored out into oracle parameters: the HTTP probe
  becomes a function `probe : String → Bool`, the TMDB/metadata fetches
  become fields of `EnrichEnv`, Discord API results become `DiscordApi`.
  The functions themselves are translated statement-by-statement from
  the Rust source.
* `tokio::sync::broadcast` notification sends are modelled by counting
  the number of `send` calls a code path performs.
* `HashMap<String, CacheEntry>` is modelled as an association list with
  insert-replaces-previous-binding semantics.
-/

namespace PlexBot

/-- `CACHE_TTL_SECS` from `plex.rs`. -/
def CACHE_TTL_SECS : Nat := 3600

/-- `TMDB_IMAGE_BASE` from `plex.rs`. -/
def TMDB_IMAGE_BASE : String := "https://image.tmdb.org/t/p/w500"

/-- `BAR_WIDTH` from `SessionMetadata::progress_bar`. -/
def BAR_WIDTH : Nat := 10

/-- `GuidTag` from `plex.rs`: one external identifier string. -/
structure GuidTag where
  id : String
deriving Repr, DecidableEq

/-- `PlexUser` from `plex.rs`. -/
structure PlexUser where
  title : String
deriving Repr, DecidableEq

/-- `PlexPlayer` from `plex.rs`. -/
structure PlexPlayer where
  state : String
deriving Repr, DecidableEq

/-- `SessionMetadata` from `plex.rs`: one playback session snapshot.
Field `media_type` is the serde-renamed `type`; `index` keeps its source
name. -/
structure SessionMetadata where
  title : String
  media_type : String
  year : Option Nat
  duration : Option Nat
  view_offset : Option Nat
  grandparent_title : Option String
  parent_title : Option String
  parent_index : Option Nat
  index : Option Nat
  user : Option PlexUser
  player : Option PlexPlayer
  guids : List GuidTag
  key : Option String
  grandparent_key : Option String
  art_url : Option String
  server_name : String
deriving Repr, DecidableEq

/-- `PlexConnection` from `plex.rs`; `local` is a Lean keyword, renamed
`local_`. -/
structure PlexConnection where
  uri : String
  local_ : Bool
deriving Repr, DecidableEq

/-- `PlexResource` from `plex.rs` (fields used by `get_server_urls`). -/
structure PlexResource where
  name : String
  client_identifier : String
  connections : List PlexConnection
  access_token : Option String
  provides : Option String
deriving Repr, DecidableEq

/-- Rust `str::trim_end_matches('/')`: drop every trailing `'/'`. -/
def trimEndSlashes (s : String) : String :=
  String.mk ((s.data.reverse.dropWhile (fun c => c = '/')).reverse)

/-- `PlexAuth::get_server_urls` from `plex.rs`, after the network fetch
(`get_servers`, already filtered to `provides == "server"`) is supplied
as the `servers` argument: select the resource whose `client_identifier`
matches, then list its non-local connection URIs (trailing slashes
trimmed) followed by its local ones. -/
def get_server_urls (servers : List PlexResource) (server_id : String) : List String :=
  match servers.find? (fun s => s.client_identifier = server_id) with
  | none => []
  | some server =>
    (server.connections.filter (fun c => !c.local_)).map (fun c => trimEndSlashes c.uri)
      ++ (server.connections.filter (fun c => c.local_)).map (fun c => trimEndSlashes c.uri)

/-- Result of one HTTP GET as `reqwest` reports it: a response (with its
status code) on any HTTP answer, or a transport-level error message. -/
structure HttpResponse where
  status : Nat
deriving Repr, DecidableEq

/-- `PlexClient::try_url` from `plex.rs`, with the network send supplied
as its result: `Ok(resp)` is reported as reachable no matter the status
code, `Err` as unreachable. -/
def try_url (result : Except String HttpResponse) : Bool :=
  match result with
  | .ok _ => true
  | .error _ => false

/-- The mutable resolver state of one `PlexClient`: the `active_url`
field (`Arc<RwLock<Option<String>>>`). -/
structure ResolverState where
  active_url : Option String
deriving Repr, DecidableEq

/-- Outcome of one `find_working_url` call: the returned URL, the new
resolver state, and whether the discovery call (`get_server_urls`) was
issued during the call. -/
structure ResolveOutcome where
  result : Option String
  state : ResolverState
  discoveryCalled : Bool
deriving Repr, DecidableEq

/-- `PlexClient::find_working_url` from `plex.rs`, with the liveness
probe (`try_url` applied to the network) abstracted as `probe` and the
discovery result (`get_server_urls`) as `candidates`. If a cached URL
probes alive it is returned with no discovery; otherwise the candidates
are probed in order, the first success is stored in `active_url` and
returned; with no success `None` is returned and the state is left as it
was (the Rust code never writes `active_url` on the failure paths). -/
def find_working_url (probe : String → Bool) (candidates : List String)
    (st : ResolverState) : ResolveOutcome :=
  match st.active_url with
  | some url =>
    if probe url then
      { result := some url, state := st, discoveryCalled := false }
    else
      match candidates.find? probe with
      | some u => { result := some u, state := { active_url := some u }, discoveryCalled := true }
      | none => { result := none, state := st, discoveryCalled := true }
  | none =>
    match candidates.find? probe with
    | some u => { result := some u, state := { active_url := some u }, discoveryCalled := true }
    | none => { result := none, state := st, discoveryCalled := true }

/-- Rust `"#".repeat(n)`: the character repeated `n` times. -/
def repeatChar (c : Char) (n : Nat) : String :=
  String.mk (List.replicate n c)

/-- A non-negative IEEE-754 binary64 value, represented exactly as
`sig * 2 ^ exp`. After rounding, `sig` is a 53-bit significand (or 0).
Sign, subnormals, overflow, NaN and infinities are omitted: every float
`progress_bar` computes is a u64 cast, a ratio of two such casts, a
clamped value in `[0, 1]`, or such a value times 10 or 100 — all
non-negative and far inside the binary64 normal range. -/
structure F64 where
  sig : Nat
  exp : ℤ
deriving Repr, DecidableEq

/-- `⌊log2 n⌋` by fuelled halving (structural recursion, so concrete
instances reduce inside the kernel; `fuel := n` always suffices). -/
def log2fuel : Nat → Nat → Nat
  | 0, _ => 0
  | fuel + 1, n => if n ≤ 1 then 0 else log2fuel fuel (n / 2) + 1

/-- `a / b < 2 ^ g`, decided on integers by shifting the power of two
onto whichever side keeps every quantity a natural number. -/
def ratLtPow2 (a b : Nat) (g : ℤ) : Bool :=
  if 0 ≤ g then a < b * 2 ^ g.toNat else a * 2 ^ (-g).toNat < b

/-- The binade of a positive rational `a / b`: the unique `e` with
`2 ^ e ≤ a / b < 2 ^ (e + 1)`. The bit-length difference of `a` and `b`
is this `e` or one too large; the comparisons correct it. -/
def floorLog2Rat (a b : Nat) : ℤ :=
  let guess : ℤ := (log2fuel a a : ℤ) - (log2fuel b b : ℤ)
  if ratLtPow2 a b guess then guess - 1
  else if !(ratLtPow2 a b (guess + 1)) then guess + 1
  else guess

/-- IEEE-754 binary64 rounding of the non-negative rational `a / b`:
scale into the binade `[2^52, 2^53)`, split off the remainder, and round
to nearest with ties to even. This is exactly the binary64 result for
any value in the normal range (the only range arising here). -/
def roundRatF64 (a b : Nat) : F64 :=
  if a = 0 then { sig := 0, exp := 0 }
  else
    let e := floorLog2Rat a b
    let a2 := if 0 ≤ 52 - e then a * 2 ^ (52 - e).toNat else a
    let b2 := if 0 ≤ 52 - e then b else b * 2 ^ (e - 52).toNat
    let n0 := a2 / b2
    let r := a2 % b2
    let m := if 2 * r < b2 then n0
             else if b2 < 2 * r then n0 + 1
             else if n0 % 2 = 0 then n0 else n0 + 1
    { sig := m, exp := e - 52 }

/-- Rust `n as f64` for `n : u64`: round the integer to binary64 (values
above 2^53 round to the nearest representable, ties to even). -/
def natToF64 (n : Nat) : F64 := roundRatF64 n 1

/-- Binary64 division `x / y` (non-negative operands, `y ≠ 0` in every
use): the correctly rounded exact quotient. Rounding commutes with the
exponent shift since no overflow or subnormal arises. -/
def f64Div (x y : F64) : F64 :=
  let q := roundRatF64 x.sig y.sig
  { q with exp := q.exp + x.exp - y.exp }

/-- Binary64 multiplication by a small exact constant (10 and 100 are
exactly representable): the correctly rounded exact product. -/
def f64MulNat (x : F64) (c : Nat) : F64 :=
  let q := roundRatF64 (x.sig * c) 1
  { q with exp := q.exp + x.exp }

/-- `x < y` on the represented values, by shifting to a common
exponent. -/
def f64Lt (x y : F64) : Bool :=
  if x.exp ≤ y.exp then x.sig < y.sig * 2 ^ (y.exp - x.exp).toNat
  else x.sig * 2 ^ (x.exp - y.exp).toNat < y.sig

/-- The binary64 value `0.0`. -/
def f64Zero : F64 := { sig := 0, exp := 0 }

/-- The binary64 value `1.0` (in rounded normal form). -/
def f64One : F64 := { sig := 2 ^ 52, exp := -52 }

/-- Rust `f64::clamp(0.0, 1.0)`: below the minimum gives the minimum,
above the maximum the maximum, else the value itself. -/
def f64Clamp01 (x : F64) : F64 :=
  if f64Lt x f64Zero then f64Zero
  else if f64Lt f64One x then f64One
  else x

/-- Rust `as usize` / `as u8` on a non-negative in-range float:
truncation toward zero. -/
def f64TruncNat (x : F64) : Nat :=
  if 0 ≤ x.exp then x.sig * 2 ^ x.exp.toNat else x.sig / 2 ^ (-x.exp).toNat

/-- `(offset as f64 / duration as f64).clamp(0.0, 1.0)` from
`progress_bar`. -/
def progressF64 (o d : Nat) : F64 :=
  f64Clamp01 (f64Div (natToF64 o) (natToF64 d))

/-- `(progress * BAR_WIDTH as f64) as usize` from `progress_bar`. -/
def filledCount (o d : Nat) : Nat :=
  f64TruncNat (f64MulNat (progressF64 o d) 10)

/-- `(progress * 100.0) as u8` from `progress_bar` (the value is at most
100, so the `u8` cast never wraps). -/
def percentValue (o d : Nat) : Nat :=
  f64TruncNat (f64MulNat (progressF64 o d) 100)

/-- `SessionMetadata::progress_bar` from `plex.rs`, with the `f64`
arithmetic modelled bit-exactly by the `F64` operations above. -/
def progress_bar (s : SessionMetadata) : String :=
  match s.view_offset, s.duration with
  | some o, some d =>
    if 0 < d then
      "[" ++ repeatChar '#' (filledCount o d)
        ++ repeatChar '-' (BAR_WIDTH - filledCount o d)
        ++ "] " ++ toString (percentValue o d) ++ "%"
    else
      "[" ++ repeatChar '-' BAR_WIDTH ++ "] --%"
  | _, _ => "[" ++ repeatChar '-' BAR_WIDTH ++ "] --%"

/-- `CacheEntry` from `plex.rs`; `Instant` becomes `Nat` seconds. -/
structure CacheEntry where
  value : Option String
  timestamp : Nat
deriving Repr, DecidableEq

/-- The `HashMap<String, CacheEntry>` artwork cache, as an association
list whose `insert` replaces any previous binding of the key. -/
abbrev Cache := List (String × CacheEntry)

/-- `entry.timestamp.elapsed().as_secs() < CACHE_TTL_SECS` from
`enrich_artwork`; elapsed time is truncated subtraction on `Nat`. -/
def cacheFresh (now : Nat) (e : CacheEntry) : Bool :=
  now - e.timestamp < CACHE_TTL_SECS

/-- The read side of `enrich_artwork`'s cache block: an entry younger
than the TTL yields its stored value (`some (value)`); a missing or
expired entry is a miss (`none`). -/
def cacheLookup (now : Nat) (cache : Cache) (key : String) : Option (Option String) :=
  match cache.lookup key with
  | some e => if cacheFresh now e then some e.value else none
  | none => none

/-- `HashMap::insert` on the association-list model. -/
def cacheInsert (cache : Cache) (key : String) (e : CacheEntry) : Cache :=
  (key, e) :: cache.filter (fun p => !(p.1 == key))

/-- `TmdbImage` from `plex.rs`. -/
structure TmdbImage where
  file_path : String
deriving Repr, DecidableEq

/-- `TmdbImagesResponse` from `plex.rs`. -/
structure TmdbImagesResponse where
  posters : List TmdbImage
  backdrops : List TmdbImage
deriving Repr, DecidableEq

/-- The I/O context of one enrichment pass: the current time, the cached
`active_url`, and the two network fetches as oracles.
`fetchMetadataGuids key` models the item-metadata GET of
`fetch_tmdb_id_from_metadata` (HTTP + JSON decode + `.first()`): the
`Guid` list of the first returned item, `none` on any failure or empty
response. `fetchImages media_path tmdb_id` models the TMDB images GET of
`fetch_tmdb_artwork`: the decoded response, `none` on any failure. -/
structure EnrichEnv where
  now : Nat
  active_url : Option String
  fetchMetadataGuids : String → Option (List GuidTag)
  fetchImages : String → String → Option TmdbImagesResponse

/-- Rust `guid.id.strip_prefix("tmdb://")`. -/
def stripTmdb (s : String) : Option String :=
  if s.startsWith "tmdb://" then some (s.drop 7) else none

/-- `PlexClient::fetch_tmdb_id_from_metadata` from `plex.rs`: requires
an active URL, fetches the item's metadata, and scans its `Guid` tags
for a `tmdb://` identifier. -/
def fetch_tmdb_id_from_metadata (env : EnrichEnv) (key : String) : Option String :=
  match env.active_url with
  | none => none
  | some _ =>
    match env.fetchMetadataGuids key with
    | none => none
    | some guids => guids.findSome? (fun g => stripTmdb g.id)

/-- `PlexClient::get_tmdb_id` from `plex.rs`: first the session's own
`Guid` tags; then, for episodes, the show's metadata via
`grandparent_key`; for movies, the item's own metadata via `key`. -/
def get_tmdb_id (env : EnrichEnv) (session : SessionMetadata) : Option String :=
  match session.guids.findSome? (fun g => stripTmdb g.id) with
  | some id => some id
  | none =>
    if session.media_type = "episode" then
      match session.grandparent_key with
      | some gp_key => fetch_tmdb_id_from_metadata env gp_key
      | none => none
    else if session.media_type = "movie" then
      match session.key with
      | some key => fetch_tmdb_id_from_metadata env key
      | none => none
    else none

/-- `PlexClient::fetch_tmdb_artwork` from `plex.rs`: first poster, else
first backdrop, composed onto `TMDB_IMAGE_BASE`; `none` on fetch failure
or when no image exists. -/
def fetch_tmdb_artwork (env : EnrichEnv) (tmdb_id media_path : String) : Option String :=
  match env.fetchImages media_path tmdb_id with
  | none => none
  | some resp =>
    (resp.posters.head?.or resp.backdrops.head?).map
      (fun img => TMDB_IMAGE_BASE ++ img.file_path)

/-- `PlexClient::enrich_artwork` from `plex.rs`. Returns the updated
session, the updated cache, and the number of TMDB artwork fetches the
call performed (0 on the no-id, unsupported-kind and cache-hit paths;
1 on a miss or expired entry, whose result — poster, backdrop or
explicit absence — is stored before returning).

`mediaPathOf` is the `media_path` match at the top of
`enrich_artwork`. -/
def mediaPathOf (media_type : String) : Option String :=
  match media_type with
  | "movie" => some "movie"
  | "episode" => some "tv"
  | _ => none

/-- `PlexClient::enrich_artwork` from `plex.rs`; the `media_path` match
is split out as `mediaPathOf`. -/
def enrich_artwork (env : EnrichEnv) (cache : Cache) (session : SessionMetadata) :
    SessionMetadata × Cache × Nat :=
  match get_tmdb_id env session with
  | none => (session, cache, 0)
  | some tmdb_id =>
    match mediaPathOf session.media_type with
    | none => (session, cache, 0)
    | some media_path =>
      let cache_key := media_path ++ ":" ++ tmdb_id
      match cacheLookup env.now cache cache_key with
      | some v => ({ session with art_url := v }, cache, 0)
      | none =>
        let art_url := fetch_tmdb_artwork env tmdb_id media_path
        ({ session with art_url := art_url },
          cacheInsert cache cache_key { value := art_url, timestamp := env.now }, 1)

/-- The per-source mutable state of one `PlexClient`: the latest session
snapshot, the display name, and the artwork cache. -/
structure SourceState where
  sessions : List SessionMetadata
  server_name : String
  artwork_cache : Cache

/-- The body of `update_sessions`'s `Ok` branch: for each fetched
session in order, set its `server_name` and enrich its artwork,
threading the cache through. -/
def stampAndEnrich (env : EnrichEnv) (name : String) (cache : Cache) :
    List SessionMetadata → List SessionMetadata × Cache
  | [] => ([], cache)
  | s :: rest =>
    let r := enrich_artwork env cache { s with server_name := name }
    let rr := stampAndEnrich env name r.2.1 rest
    (r.1 :: rr.1, rr.2)

/-- `PlexClient::update_sessions` from `plex.rs`, with the outcome of
`fetch_sessions` supplied as `fetched` (it errors when there is no
active URL or the HTTP request fails). Returns the new source state and
the number of broadcast notifications sent: on error nothing changes and
nothing is sent; on success the snapshot is replaced by the stamped,
enriched list and exactly one `update_tx.send(())` is issued. -/
def update_sessions (env : EnrichEnv) (fetched : Except Unit (List SessionMetadata))
    (st : SourceState) : SourceState × Nat :=
  match fetched with
  | .error _ => (st, 0)
  | .ok sessions =>
    let r := stampAndEnrich env st.server_name st.artwork_cache sessions
    ({ st with sessions := r.1, artwork_cache := r.2 }, 1)

/-- `PlexServer` from `config.rs`. -/
structure PlexServer where
  server_id : String
  token : String
deriving Repr, DecidableEq

/-- `Config` from `config.rs` (the persisted board state). -/
structure Config where
  plex_servers : List PlexServer
  session_channel_id : Option Nat
  session_message_id : Option Nat
deriving Repr, DecidableEq

/-- `ConfigManager::set_session_channel` from `config.rs`: sets the
channel and unconditionally clears the message id (the save-to-disk step
is outside the state transition modelled here). -/
def set_session_channel (config : Config) (channel_id : Nat) : Config :=
  { config with session_channel_id := some channel_id, session_message_id := none }

/-- `ConfigManager::set_session_message` from `config.rs`. -/
def set_session_message (config : Config) (message_id : Nat) : Config :=
  { config with session_message_id := some message_id }

/-- `ConfigManager::clear_session` from `config.rs`. -/
def clear_session (config : Config) : Config :=
  { config with session_channel_id := none, session_message_id := none }

/-- `CreateEmbedFooter` (serenity builder), reduced to its text. -/
structure CreateEmbedFooter where
  text : String
deriving Repr, DecidableEq

/-- The serenity `CreateEmbed` builder, reduced to the fields this
program sets; a field never set stays `none`. -/
structure CreateEmbed where
  title : Option String
  description : Option String
  color : Option Nat
  footer : Option CreateEmbedFooter
  thumbnail : Option String
deriving Repr, DecidableEq

/-- `build_session_embed` from `embeds.rs`: one embed per session. -/
def build_session_embed (session : SessionMetadata) : CreateEmbed :=
  let user_name := (session.user.map (fun u => u.title)).getD "Unknown User"
  let player_state := (session.player.map (fun p => p.state)).getD "unknown"
  let description :=
    match session.media_type with
    | "episode" =>
      let showName := session.grandparent_title.getD "Unknown Show"
      let season := session.parent_index.getD 0
      let episode := session.index.getD 0
      "**" ++ showName ++ "**\n S" ++ toString season ++ "·E" ++ toString episode
        ++ " - " ++ session.title ++ "\n" ++ progress_bar session
    | "movie" =>
      let year_str := (session.year.map (fun y => " (" ++ toString y ++ ")")).getD ""
      "**" ++ session.title ++ "**" ++ year_str ++ "\n" ++ progress_bar session
    | "track" =>
      let artist := session.grandparent_title.getD "Unknown Artist"
      let album := session.parent_title.getD "Unknown Album"
      "**" ++ artist ++ "** - " ++ session.title ++ "\n" ++ album ++ "\n" ++ progress_bar session
    | _ => "**" ++ session.title ++ "**\n" ++ progress_bar session
  { title := some (user_name ++ " " ++ player_state)
    description := some description
    color := some (match player_state with
      | "playing" => 0xe5a00d
      | "paused" => 0x666666
      | _ => 0x282a2d)
    footer := some { text := session.server_name }
    thumbnail := session.art_url }

/-- `build_session_embeds` from `embeds.rs`: with no session, a single
"No active sessions" placeholder whose footer is the sole server's name
or the server count; otherwise one embed per session. (`server_names[0]`
under `len == 1` is `headD ""`; the default is unreachable.) -/
def build_session_embeds (sessions : List SessionMetadata) (server_names : List String) :
    List CreateEmbed :=
  if sessions.isEmpty then
    let footer_text :=
      if server_names.length = 1 then server_names.headD ""
      else toString server_names.length ++ " servers"
    [{ title := some "📺 Plex Activity"
       description := some "No active sessions"
       color := some 0x282a2d
       footer := some { text := footer_text }
       thumbnail := none }]
  else
    sessions.map build_session_embed

/-- A Discord write the tick body performs (`edit_message` or
`send_message` in `main.rs`), with its target and payload. -/
inductive DiscordAction where
  | editMsg (channel message : Nat) (embeds : List CreateEmbed)
  | createMsg (channel : Nat) (embeds : List CreateEmbed)
deriving Repr, DecidableEq

/-- Outcomes the Discord HTTP API would return to this tick: the edit
result, and the created message's id on successful creation. -/
structure DiscordApi where
  editResult : Except Unit Unit
  createResult : Except Unit Nat

/-- The body of one tick of `update_loop` in `main.rs`, from the receipt
of an aggregate notification: read the config; with no channel, skip
(no write, no state change); otherwise build the embeds from the
collected sessions and server names, then edit the existing message
(leaving the config untouched whether the edit succeeds or fails) or
create a new one (persisting its id via `set_session_message` only on
success). Returns the new config and the Discord writes performed. -/
def update_tick (api : DiscordApi) (config : Config)
    (all_sessions : List SessionMetadata) (server_names : List String) :
    Config × List DiscordAction :=
  match config.session_channel_id with
  | none => (config, [])
  | some channel_id =>
    let embeds := build_session_embeds all_sessions server_names
    match config.session_message_id with
    | some msg_id =>
      match api.editResult with
      | .ok _ => (config, [DiscordAction.editMsg channel_id msg_id embeds])
      | .error _ => (config, [DiscordAction.editMsg channel_id msg_id embeds])
    | none =>
      match api.createResult with
      | .ok message_id =>
        (set_session_message config message_id, [DiscordAction.createMsg channel_id embeds])
      | .error _ => (config, [DiscordAction.createMsg channel_id embeds])

/-- A concrete episode session used to instantiate theorems on concrete
inputs. -/
def exampleEpisode : SessionMetadata :=
  { title := "Pilot", media_type := "episode", year := none,
    duration := some 1200, view_offset := some 300,
    grandparent_title := some "Foo", parent_title := none,
    parent_index := some 1, index := some 2, user := none, player := none,
    guids := [], key := none, grandparent_key := none, art_url := none,
    server_name := "Plex" }

/-- A concrete session at ratio 29/100 — a 30-minute episode at 8:42 —
where binary64 double rounding makes the displayed percent differ from
the exact `floor (100 * offset/duration)`. -/
def cexEpisode : SessionMetadata :=
  { exampleEpisode with view_offset := some 522000, duration := some 1800000 }

/-- A concrete discovery result used to instantiate theorems on concrete
inputs: one server with one local and one remote connection. -/
def exampleResource : PlexResource :=
  { name := "Home"
    client_identifier := "id1"
    connections := [{ uri := "http://192.168.1.2:32400/", local_ := true },
                    { uri := "https://remote.example", local_ := false }]
    access_token := none
    provides := some "server" }

section Lemmas

/-- `List.find?` returns its first success: the found element satisfies
the test, and everything before it in the list fails it. -/
theorem find?_first_success {α : Type} {p : α → Bool} {xs : List α} {v : α}
    (h : xs.find? p = some v) :
    p v = true ∧ ∃ pre post, xs = pre ++ v :: post ∧ ∀ w ∈ pre, p w = false := by
  induction xs with
  | nil => simp at h
  | cons x rest ih =>
    by_cases hx : p x = true
    · rw [List.find?_cons_of_pos _ hx] at h
      cases h
      exact ⟨hx, [], rest, rfl, by simp⟩
    · rw [List.find?_cons_of_neg _ (by simpa using hx)] at h
      obtain ⟨hp, pre, post, hxs, hpre⟩ := ih h
      refine ⟨hp, x :: pre, post, by rw [hxs]; rfl, ?_⟩
      intro w hw
      rcases List.mem_cons.mp hw with rfl | hw
      · simpa using hx
      · exact hpre w hw

/-- `enrich_artwork` can only change the `art_url` field of the session
it is given. -/
theorem enrich_artwork_changes_only_art (env : EnrichEnv) (cache : Cache)
    (s : SessionMetadata) :
    ∃ a, (enrich_artwork env cache s).1 = { s with art_url := a } := by
  unfold enrich_artwork
  cases hid : get_tmdb_id env s with
  | none => exact ⟨s.art_url, rfl⟩
  | some tmdb_id =>
    cases hmp : mediaPathOf s.media_type with
    | none => exact ⟨s.art_url, rfl⟩
    | some mp =>
      cases hl : cacheLookup env.now cache (mp ++ ":" ++ tmdb_id) with
      | some v => exact ⟨v, by simp [hl]⟩
      | none => exact ⟨fetch_tmdb_artwork env tmdb_id mp, by simp [hl]⟩

end Lemmas

/-- **C10.** `try_url` reports success for every received HTTP response
regardless of its status code — including 401 and 404 — and reports
failure exactly on a transport-level error, so an endpoint answering
with an authentication or error status still counts as reachable. -/
theorem try_url_ignores_status :
    (∀ status : Nat, try_url (Except.ok { status := status }) = true) ∧
    try_url (Except.ok { status := 401 }) = true ∧
    try_url (Except.ok { status := 404 }) = true ∧
    (∀ e : String, try_url (Except.error e) = false) :=
  ⟨fun _ => rfl, rfl, rfl, fun _ => rfl⟩

/-- **C4.** `set_session_channel` sets the channel id to the new value
and always clears any existing message id, for every prior board
state. -/
theorem set_session_channel_clears_message (config : Config) (channel_id : Nat) :
    (set_session_channel config channel_id).session_channel_id = some channel_id ∧
    (set_session_channel config channel_id).session_message_id = none :=
  ⟨rfl, rfl⟩

/-- **C8.** A tick of `update_loop` with no configured destination
channel performs no Discord write and leaves the board state unchanged,
whatever the rest of the configuration, the API outcomes, and the
collected sessions are. -/
theorem update_tick_no_channel_noop (api : DiscordApi) (servers : List PlexServer)
    (message_id : Option Nat) (all_sessions : List SessionMetadata)
    (server_names : List String) :
    update_tick api
        { plex_servers := servers, session_channel_id := none,
          session_message_id := message_id } all_sessions server_names
      = ({ plex_servers := servers, session_channel_id := none,
           session_message_id := message_id }, []) :=
  rfl

/-- **C9.** When every source reports zero sessions, the render is
exactly one "No active sessions" placeholder embed and no per-session
embed; with two sources its footer text is `"2 servers"`. -/
theorem build_session_embeds_empty_two_servers (server_names : List String)
    (h : server_names.length = 2) :
    build_session_embeds [] server_names
      = [{ title := some "📺 Plex Activity"
           description := some "No active sessions"
           color := some 0x282a2d
           footer := some { text := "2 servers" }
           thumbnail := none }] := by
  simp only [build_session_embeds, List.isEmpty_nil, if_true, h]
  rfl

/-- Instantiation of `build_session_embeds_empty_two_servers` at a
concrete pair of server names. -/
theorem build_session_embeds_empty_two_servers_witness :
    build_session_embeds [] ["Server A", "Server B"]
      = [{ title := some "📺 Plex Activity"
           description := some "No active sessions"
           color := some 0x282a2d
           footer := some { text := "2 servers" }
           thumbnail := none }] :=
  build_session_embeds_empty_two_servers ["Server A", "Server B"] rfl

/-- **C7.** On a tick that edits an existing board message, the
persisted state — in particular the message id — is left untouched
whether the edit succeeds or fails (so the next tick retargets the same
id); and the persisted message id is only ever written on a successful
creation of a new message (which happens only when none was stored). -/
theorem update_tick_edit_keeps_message_id (api : DiscordApi) (config : Config)
    (all_sessions : List SessionMetadata) (server_names : List String) :
    (∀ ch m, config.session_channel_id = some ch → config.session_message_id = some m →
      update_tick api config all_sessions server_names
        = (config, [DiscordAction.editMsg ch m
            (build_session_embeds all_sessions server_names)])) ∧
    ((update_tick api config all_sessions server_names).1.session_message_id
        ≠ config.session_message_id →
      config.session_message_id = none ∧
      ∃ id, api.createResult = Except.ok id ∧
        (update_tick api config all_sessions server_names).1.session_message_id = some id) := by
  constructor
  · intro ch m h1 h2
    cases api with
    | mk editResult createResult =>
      cases editResult with
      | ok u => simp [update_tick, h1, h2]
      | error u => simp [update_tick, h1, h2]
  · intro hchg
    cases hch : config.session_channel_id with
    | none => simp [update_tick, hch] at hchg
    | some ch =>
      cases hm : config.session_message_id with
      | some m =>
        cases api with
        | mk editResult createResult =>
          cases editResult with
          | ok u => simp [update_tick, hch, hm] at hchg
          | error u => simp [update_tick, hch, hm] at hchg
      | none =>
        cases hcr : api.createResult with
        | ok id =>
          exact ⟨rfl, id, rfl, by simp [update_tick, hch, hm, hcr, set_session_message]⟩
        | error u => simp [update_tick, hch, hm, hcr] at hchg

/-- Instantiation of `update_tick_edit_keeps_message_id` on a concrete
board state with a stored message id and a failing edit. -/
theorem update_tick_edit_keeps_message_id_witness :
    update_tick { editResult := Except.error (), createResult := Except.ok 7 }
        { plex_servers := [], session_channel_id := some 5, session_message_id := some 9 }
        [] ["Server A"]
      = ({ plex_servers := [], session_channel_id := some 5, session_message_id := some 9 },
         [DiscordAction.editMsg 5 9 (build_session_embeds [] ["Server A"])]) :=
  (update_tick_edit_keeps_message_id
    { editResult := Except.error (), createResult := Except.ok 7 }
    { plex_servers := [], session_channel_id := some 5, session_message_id := some 9 }
    [] ["Server A"]).1 5 9 rfl rfl

/-- **C1, counterexample.** With a cached endpoint that fails the
liveness probe and a rediscovery that yields no live candidate, one
`find_working_url` call does *not* clear the cached active endpoint: the
stale URL is still stored afterwards. -/
theorem find_working_url_stale_not_cleared_cex :
    ((fun _ : String => false) "https://stale.example" = false) ∧
    (find_working_url (fun _ : String => false) []
        { active_url := some "https://stale.example" }).state.active_url
      = some "https://stale.example" :=
  ⟨rfl, rfl⟩

/-- **C1, amended.** For every resolver state with a cached endpoint
that fails the liveness probe, one `find_working_url` call performs full
rediscovery and never returns the stale endpoint; the cached endpoint is
overwritten with whatever live candidate is found but is left unchanged
— still holding the stale value, not cleared — when no candidate passes
the probe. -/
theorem find_working_url_stale_rediscovery (probe : String → Bool)
    (candidates : List String) (stale : String) (st : ResolverState)
    (hst : st.active_url = some stale) (hfail : probe stale = false) :
    (find_working_url probe candidates st).discoveryCalled = true ∧
    (find_working_url probe candidates st).result ≠ some stale ∧
    (∀ v, (find_working_url probe candidates st).result = some v →
      (find_working_url probe candidates st).state.active_url = some v ∧ probe v = true) ∧
    ((find_working_url probe candidates st).result = none →
      (find_working_url probe candidates st).state = st) := by
  cases st with
  | mk active =>
    simp only [ResolverState.mk.injEq] at hst
    subst hst
    simp only [find_working_url, hfail, Bool.false_eq_true, if_false]
    cases hf : candidates.find? probe with
    | some u =>
      have hpu : probe u = true := (find?_first_success hf).1
      refine ⟨rfl, ?_, ?_, ?_⟩
      · intro hcontra
        simp only [Option.some.injEq] at hcontra
        subst hcontra
        rw [hfail] at hpu
        exact absurd hpu (by decide)
      · intro v hv
        simp only [Option.some.injEq] at hv
        subst hv
        exact ⟨rfl, hpu⟩
      · intro hnone
        exact absurd hnone (by simp)
    | none =>
      refine ⟨rfl, by simp, ?_, fun _ => rfl⟩
      intro v hv
      simp at hv

/-- Instantiation of `find_working_url_stale_rediscovery` on a concrete
stale endpoint and a candidate list containing one live URL. -/
theorem find_working_url_stale_rediscovery_witness :
    ((⟨some "https://stale.example"⟩ : ResolverState).active_url
        = some "https://stale.example") ∧
    ((fun u : String => u == "https://good.example") "https://stale.example" = false) ∧
    (find_working_url (fun u : String => u == "https://good.example")
        ["https://good.example"] ⟨some "https://stale.example"⟩).discoveryCalled = true ∧
    (find_working_url (fun u : String => u == "https://good.example")
        ["https://good.example"] ⟨some "https://stale.example"⟩).result
      ≠ some "https://stale.example" :=
  ⟨rfl, by decide,
    (find_working_url_stale_rediscovery (fun u : String => u == "https://good.example")
      ["https://good.example"] "https://stale.example" ⟨some "https://stale.example"⟩
      rfl (by decide)).1,
    (find_working_url_stale_rediscovery (fun u : String => u == "https://good.example")
      ["https://good.example"] "https://stale.example" ⟨some "https://stale.example"⟩
      rfl (by decide)).2.1⟩

/-- When the cached endpoint is absent or fails the probe,
`find_working_url` reduces to probing the candidate list. -/
theorem find_working_url_discovery (probe : String → Bool) (cands : List String)
    (st : ResolverState)
    (hd : st.active_url = none ∨ ∃ url, st.active_url = some url ∧ probe url = false) :
    find_working_url probe cands st
      = (match cands.find? probe with
         | some u => { result := some u, state := ⟨some u⟩, discoveryCalled := true }
         | none => { result := none, state := st, discoveryCalled := true }) := by
  cases st with
  | mk active =>
    rcases hd with h | ⟨url, h, hp⟩
    · simp only [ResolverState.mk.injEq] at h  -- h : active = none
      subst h
      rfl
    · simp only [ResolverState.mk.injEq] at h
      subst h
      simp [find_working_url, hp]

/-- **C5.** The endpoint-resolution algorithm: a cached endpoint whose
probe succeeds is returned unchanged with no discovery; otherwise
discovery runs, the candidate list is the matching server's non-local
connection URIs followed by its local ones, candidates are probed in
that order, the first success is stored as the cached endpoint and
returned, and when every candidate fails the probe, no endpoint is
returned and the state is untouched. -/
theorem find_working_url_full_algorithm (probe : String → Bool)
    (servers : List PlexResource) (server_id : String) (st : ResolverState) :
    (∀ url, st.active_url = some url → probe url = true →
      find_working_url probe (get_server_urls servers server_id) st
        = { result := some url, state := st, discoveryCalled := false }) ∧
    (∀ srv, servers.find? (fun s => s.client_identifier = server_id) = some srv →
      get_server_urls servers server_id
        = (srv.connections.filter (fun c => !c.local_)).map (fun c => trimEndSlashes c.uri)
          ++ (srv.connections.filter (fun c => c.local_)).map (fun c => trimEndSlashes c.uri)) ∧
    (st.active_url = none ∨ (∃ url, st.active_url = some url ∧ probe url = false) →
      (find_working_url probe (get_server_urls servers server_id) st).discoveryCalled = true ∧
      (∀ v, (find_working_url probe (get_server_urls servers server_id) st).result = some v →
        (find_working_url probe (get_server_urls servers server_id) st).state
          = { active_url := some v } ∧
        probe v = true ∧
        ∃ pre post, get_server_urls servers server_id = pre ++ v :: post ∧
          ∀ w ∈ pre, probe w = false) ∧
      ((∀ w ∈ get_server_urls servers server_id, probe w = false) →
        (find_working_url probe (get_server_urls servers server_id) st).result = none ∧
        (find_working_url probe (get_server_urls servers server_id) st).state = st)) := by
  refine ⟨?_, ?_, ?_⟩
  · intro url hu hp
    cases st with
    | mk active =>
      simp only [ResolverState.mk.injEq] at hu
      subst hu
      simp [find_working_url, hp]
  · intro srv hsrv
    simp [get_server_urls, hsrv]
  · intro hd
    rw [find_working_url_discovery probe (get_server_urls servers server_id) st hd]
    cases hf : (get_server_urls servers server_id).find? probe with
    | some u =>
      obtain ⟨hpu, pre, post, hsplit, hpre⟩ := find?_first_success hf
      refine ⟨rfl, ?_, ?_⟩
      · intro v hv
        simp only [Option.some.injEq] at hv
        subst hv
        exact ⟨rfl, hpu, pre, post, hsplit, hpre⟩
      · intro hall
        have : probe u = false := hall u (by rw [hsplit]; exact List.mem_append_right _ (List.mem_cons_self _ _))
        rw [this] at hpu
        exact absurd hpu (by decide)
    | none =>
      exact ⟨rfl, fun v hv => by simp at hv, fun _ => ⟨rfl, rfl⟩⟩

/-- Instantiation of `find_working_url_full_algorithm`: a cached-hit
call returns the cached URL with no discovery, and a cold-start call
performs discovery. -/
theorem find_working_url_full_algorithm_witness :
    ((⟨some "https://cached.example"⟩ : ResolverState).active_url
        = some "https://cached.example") ∧
    ((fun u : String => u == "https://cached.example") "https://cached.example" = true) ∧
    find_working_url (fun u : String => u == "https://cached.example")
        (get_server_urls [exampleResource] "id1") ⟨some "https://cached.example"⟩
      = { result := some "https://cached.example",
          state := ⟨some "https://cached.example"⟩, discoveryCalled := false } ∧
    (find_working_url (fun u : String => u == "https://remote.example")
        (get_server_urls [exampleResource] "id1") ⟨none⟩).discoveryCalled = true :=
  ⟨rfl, by decide,
    (find_working_url_full_algorithm (fun u : String => u == "https://cached.example")
      [exampleResource] "id1" ⟨some "https://cached.example"⟩).1
      "https://cached.example" rfl (by decide),
    ((find_working_url_full_algorithm (fun u : String => u == "https://remote.example")
      [exampleResource] "id1" ⟨none⟩).2.2 (Or.inl rfl)).1⟩

/-- **C2.** The enrichment cache round-trip: a stored value — including
an explicit no-artwork `none` — is returned by a lookup strictly within
the 3600 s TTL and treated as a miss once the TTL has elapsed; inside
`enrich_artwork` a fresh entry is served with no TMDB fetch, while a
missing or expired entry triggers exactly one fetch whose result is
stored. -/
theorem artwork_cache_ttl_law :
    (∀ (cache : Cache) (key : String) (v : Option String) (now later : Nat),
      now ≤ later →
      cacheLookup later (cacheInsert cache key { value := v, timestamp := now }) key
        = if later - now < CACHE_TTL_SECS then some v else none) ∧
    (∀ (env : EnrichEnv) (cache : Cache) (session : SessionMetadata)
        (tmdb_id media_path : String) (v : Option String),
      get_tmdb_id env session = some tmdb_id →
      mediaPathOf session.media_type = some media_path →
      cacheLookup env.now cache (media_path ++ ":" ++ tmdb_id) = some v →
      enrich_artwork env cache session = ({ session with art_url := v }, cache, 0)) ∧
    (∀ (env : EnrichEnv) (cache : Cache) (session : SessionMetadata)
        (tmdb_id media_path : String),
      get_tmdb_id env session = some tmdb_id →
      mediaPathOf session.media_type = some media_path →
      cacheLookup env.now cache (media_path ++ ":" ++ tmdb_id) = none →
      enrich_artwork env cache session
        = ({ session with art_url := fetch_tmdb_artwork env tmdb_id media_path },
           cacheInsert cache (media_path ++ ":" ++ tmdb_id)
             { value := fetch_tmdb_artwork env tmdb_id media_path, timestamp := env.now },
           1)) := by
  refine ⟨?_, ?_, ?_⟩
  · intro cache key v now later _
    simp [cacheLookup, cacheInsert, cacheFresh, List.lookup]
  · intro env cache session tmdb_id media_path v h1 h2 h3
    simp [enrich_artwork, h1, h2, h3]
  · intro env cache session tmdb_id media_path h1 h2 h3
    simp [enrich_artwork, h1, h2, h3]

/-- Instantiation of `artwork_cache_ttl_law`: an explicit no-artwork
entry stored at time 0 is a hit at 10 s and a miss at 3600 s. -/
theorem artwork_cache_ttl_law_witness :
    (0 ≤ 10 ∧
      cacheLookup 10 (cacheInsert [] "tv:42" { value := none, timestamp := 0 }) "tv:42"
        = if 10 - 0 < CACHE_TTL_SECS then some none else none) ∧
    (0 ≤ 3600 ∧
      cacheLookup 3600 (cacheInsert [] "tv:42" { value := none, timestamp := 0 }) "tv:42"
        = if 3600 - 0 < CACHE_TTL_SECS then some none else none) :=
  ⟨⟨by decide, artwork_cache_ttl_law.1 [] "tv:42" none 0 10 (by decide)⟩,
   ⟨by decide, artwork_cache_ttl_law.1 [] "tv:42" none 0 3600 (by decide)⟩⟩

/-- `stampAndEnrich` keeps the number of sessions. -/
theorem stampAndEnrich_length (env : EnrichEnv) (name : String) (cache : Cache)
    (l : List SessionMetadata) :
    (stampAndEnrich env name cache l).1.length = l.length := by
  induction l generalizing cache with
  | nil => rfl
  | cons s rest ih => simp [stampAndEnrich, ih]

/-- Each output of `stampAndEnrich` is the corresponding input session
with `server_name` stamped and (only) `art_url` possibly updated. -/
theorem stampAndEnrich_get? (env : EnrichEnv) (name : String) (cache : Cache)
    (l : List SessionMetadata) (i : Nat) :
    ∃ a, (stampAndEnrich env name cache l).1.get? i
      = (l.get? i).map (fun s => { s with server_name := name, art_url := a }) := by
  induction l generalizing cache i with
  | nil => exact ⟨none, by simp [stampAndEnrich]⟩
  | cons s rest ih =>
    cases i with
    | zero =>
      obtain ⟨a, ha⟩ := enrich_artwork_changes_only_art env cache { s with server_name := name }
      exact ⟨a, by simp [stampAndEnrich, ha]⟩
    | succ n =>
      obtain ⟨a, ha⟩ := ih (enrich_artwork env cache { s with server_name := name }).2.1 n
      exact ⟨a, by simpa [stampAndEnrich] using ha⟩

/-- **C6.** One poll-and-publish cycle: a failed session fetch changes
nothing and emits no notification; a successful fetch replaces the
snapshot with the fetched list — same length, each entry stamped with
the source's display name (artwork enrichment may set `art_url`) — and
emits exactly one notification. -/
theorem update_sessions_cycle_law :
    (∀ (env : EnrichEnv) (st : SourceState) (e : Unit),
      update_sessions env (Except.error e) st = (st, 0)) ∧
    (∀ (env : EnrichEnv) (st : SourceState) (sessions : List SessionMetadata),
      (update_sessions env (Except.ok sessions) st).2 = 1 ∧
      (update_sessions env (Except.ok sessions) st).1.server_name = st.server_name ∧
      (update_sessions env (Except.ok sessions) st).1.sessions.length = sessions.length ∧
      (∀ i : Nat, ∃ a,
        (update_sessions env (Except.ok sessions) st).1.sessions.get? i
          = (sessions.get? i).map
              (fun s => { s with server_name := st.server_name, art_url := a }))) := by
  refine ⟨fun env st e => rfl, fun env st sessions => ⟨rfl, rfl, ?_, ?_⟩⟩
  · simpa [update_sessions] using
      stampAndEnrich_length env st.server_name st.artwork_cache sessions
  · intro i
    simpa [update_sessions] using
      stampAndEnrich_get? env st.server_name st.artwork_cache sessions i

/-- **C3, counterexample.** At offset 522000 of duration 1800000 (ratio
exactly 29/100) the program's binary64 pipeline displays `28%` — the
division rounds 0.29 down, and the multiplication by 100 then rounds to
just below 29, which truncates to 28 — while the claim's exact formula
`floor (100 * clamp (offset/duration) 0 1)` gives 29. The displayed bar
is `[##--------] 28%`, not the claimed 29. -/
theorem progress_bar_exact_floor_cex :
    cexEpisode.view_offset = some 522000 ∧
    cexEpisode.duration = some 1800000 ∧
    progress_bar cexEpisode = "[##--------] 28%" ∧
    Int.toNat (Int.floor ((100 : ℚ)
      * min (max (((522000 : Nat) : ℚ) / ((1800000 : Nat) : ℚ)) 0) 1)) = 29 := by
  refine ⟨rfl, rfl, by decide, ?_⟩
  have hr : (((522000 : Nat) : ℚ) / ((1800000 : Nat) : ℚ)) = 29 / 100 := by norm_num
  rw [hr, max_eq_left (by norm_num : (0 : ℚ) ≤ 29 / 100),
    min_eq_left (by norm_num : (29 : ℚ) / 100 ≤ 1)]
  norm_num
  rfl

/-- **C3, amended.** For a session with a present, positive duration
(and a present offset, which the ratio in the claim presupposes), the
rendered bar has exactly `floor (10 * clamp (offset/duration) 0 1)`
filled segments and displays the integer percent
`floor (100 * clamp (offset/duration) 0 1)` — with the ratio, clamp and
products evaluated in IEEE-754 binary64 as the code does, which can
differ by one from the exact rational floor at double-rounding
boundaries — the rest of the ten segments empty; with duration absent or
zero it renders ten empty segments and the placeholder `--%`. -/
theorem progress_bar_f64_formula (s : SessionMetadata) :
    (∀ o d, s.view_offset = some o → s.duration = some d → 0 < d →
      progress_bar s
        = "[" ++ repeatChar '#'
              (f64TruncNat (f64MulNat (f64Clamp01 (f64Div (natToF64 o) (natToF64 d))) 10))
          ++ repeatChar '-'
              (10 - f64TruncNat (f64MulNat (f64Clamp01 (f64Div (natToF64 o) (natToF64 d))) 10))
          ++ "] "
          ++ toString
              (f64TruncNat (f64MulNat (f64Clamp01 (f64Div (natToF64 o) (natToF64 d))) 100))
          ++ "%") ∧
    ((s.duration = none ∨ s.duration = some 0) → progress_bar s = "[----------] --%") := by
  constructor
  · intro o d h1 h2 h3
    simp only [progress_bar, h1, h2, if_pos h3, BAR_WIDTH, filledCount, percentValue,
      progressF64]
  · intro h
    rcases h with h | h
    · cases hvo : s.view_offset with
      | none => simp only [progress_bar, h, hvo]; decide
      | some o => simp only [progress_bar, h, hvo]; decide
    · cases hvo : s.view_offset with
      | none => simp only [progress_bar, h, hvo]; decide
      | some o =>
        simp only [progress_bar, h, hvo, Nat.lt_irrefl, if_false]
        decide

/-- Instantiation of `progress_bar_f64_formula` at offset 300 of 1200
(ratio 0.25, exactly representable, so binary64 and exact arithmetic
agree: two filled segments, eight empty, percent 25). -/
theorem progress_bar_f64_formula_witness :
    progress_bar exampleEpisode
      = "[" ++ repeatChar '#'
            (f64TruncNat (f64MulNat (f64Clamp01 (f64Div (natToF64 300) (natToF64 1200))) 10))
        ++ repeatChar '-'
            (10 - f64TruncNat
              (f64MulNat (f64Clamp01 (f64Div (natToF64 300) (natToF64 1200))) 10))
        ++ "] "
        ++ toString
            (f64TruncNat (f64MulNat (f64Clamp01 (f64Div (natToF64 300) (natToF64 1200))) 100))
        ++ "%" :=
  (progress_bar_f64_formula exampleEpisode).1 300 1200 rfl rfl (by decide)

end PlexBot
